import Mathlib

/-!
Verification of the SOPHIA intent-classification and escalation core of the
txdxai_Flask repository.  The Python modules
`sophia_service/sophia/intent_router.py`, `sophia_service/sophia/handoff.py`,
`sophia_service/victor/client_stub.py`, `sophia_service/sophia/memory.py`,
`sophia_service/sophia/rag_tools.py` and the backend route
`txdxai/tickets/routes.py` (agent_create_ticket) are shallowly embedded as
executable Lean functions; network calls and the process-wide string hash are
made explicit parameters.
-/

namespace Sophia

/-! ### Python string primitives

`pyLower` models `str.lower()`.  Lean's `Char.toLower` lowers only ASCII
letters; every keyword and every concrete message analysed below is already
lower case outside ASCII, so the two functions agree on all inputs considered.
-/

def pyLower (s : String) : String := ⟨s.data.map Char.toLower⟩

/-- `containsSubstr s sub` models the Python expression `sub in s`
(substring containment). -/
def containsSubstr (s sub : String) : Bool :=
  s.data.tails.any (fun suffix => sub.data.isPrefixOf suffix)

/-- Python `\w` for ASCII text: letters, digits and underscore. -/
def isWordChar (c : Char) : Bool := c.isAlpha || c.isDigit || c == '_'

/-- Python `str.split()` with no argument: split on runs of whitespace,
dropping empty fragments. -/
def splitWsAux : List Char → List Char → List String
  | [], acc => if acc.isEmpty then [] else [⟨acc.reverse⟩]
  | c :: cs, acc =>
    if c.isWhitespace then
      if acc.isEmpty then splitWsAux cs [] else ⟨acc.reverse⟩ :: splitWsAux cs []
    else splitWsAux cs (c :: acc)

def splitWs (s : String) : List String := splitWsAux s.data []

/-- Python `str.strip('.,!?')`: remove the listed characters from both ends. -/
def isStripPunct (c : Char) : Bool := c == '.' || c == ',' || c == '!' || c == '?'

def stripPunct (s : String) : String :=
  ⟨((s.data.dropWhile isStripPunct).reverse.dropWhile isStripPunct).reverse⟩

/-! ### The IPv4 regular expression

`re.findall(r'\b(?:\d{1,3}\.){3}\d{1,3}\b', message)` from
`IntentRouter._extract_parameters`.  Because a digit run of length `d` can
satisfy `\d{1,3}` followed by `\.` (resp. by `\b`) only when `d ≤ 3` — any
shorter greedy backtrack still faces a digit where `.` (resp. a non-word
character) is required — the match at a fixed position is deterministic and
is computed without general backtracking. -/

/-- Match `\d{1,3}\.` at the head of `s`; return (consumed, rest). -/
def matchOctetDot (s : List Char) : Option (List Char × List Char) :=
  let d := (s.takeWhile Char.isDigit).length
  if 1 ≤ d ∧ d ≤ 3 then
    match s.drop d with
    | '.' :: rest => some (s.take d ++ ['.'], rest)
    | _ => none
  else none

/-- Match the final `\d{1,3}` of the pattern, requiring the trailing `\b`. -/
def matchLastOctet (s : List Char) : Option (List Char × List Char) :=
  let d := (s.takeWhile Char.isDigit).length
  if 1 ≤ d ∧ d ≤ 3 then
    match s.drop d with
    | [] => some (s.take d, [])
    | c :: rest => if isWordChar c then none else some (s.take d, c :: rest)
  else none

/-- Match the whole pattern `(?:\d{1,3}\.){3}\d{1,3}\b` at the head of `s`. -/
def matchIP (s : List Char) : Option (List Char × List Char) := do
  let (g1, r1) ← matchOctetDot s
  let (g2, r2) ← matchOctetDot r1
  let (g3, r3) ← matchOctetDot r2
  let (g4, r4) ← matchLastOctet r3
  some (g1 ++ g2 ++ g3 ++ g4, r4)

/-- Left-to-right non-overlapping scan of `re.findall`.  The first character
of any match is a digit, so the leading `\b` holds exactly when the previous
character is absent or not a word character. -/
def findIPsAux : Nat → List Char → Option Char → List String
  | 0, _, _ => []
  | _ + 1, [], _ => []
  | fuel + 1, c :: cs, prev =>
    let boundary := match prev with
      | none => true
      | some p => !isWordChar p
    if boundary then
      match matchIP (c :: cs) with
      | some (m, rest) => (⟨m⟩ : String) :: findIPsAux fuel rest (some (m.getLastD c))
      | none => findIPsAux fuel cs (some c)
    else findIPsAux fuel cs (some c)

def findIPs (s : String) : List String := findIPsAux (s.data.length + 1) s.data none

/-! ### Data model: `victor/ticket_models.py` -/

/-- A value stored in the `parameters` dict of an `ActionRequest`: the code
stores either a string or a list of strings. -/
inductive PValue where
  | str (v : String)
  | list (vs : List String)
deriving DecidableEq, Repr

/-- `ActionRequest` dataclass from `victor/ticket_models.py`.  The Python
`parameters` dict is modelled as an insertion-ordered association list. -/
structure ActionRequest where
  intent : String
  action_type : String
  parameters : List (String × PValue) := []
  original_message : String := ""
  requires_escalation : Bool := false
deriving DecidableEq, Repr

/-! ### `sophia/intent_router.py` -/

/-- `IntentRouter.ACTION_KEYWORDS`. -/
def ACTION_KEYWORDS : List String :=
  ["block", "quarantine", "isolate", "shutdown", "disable", "remove",
   "delete", "terminate", "kill", "stop", "ban", "restrict",
   "execute", "run", "deploy", "configure", "change", "modify",
   "bloquea", "bloquear", "cuarentena", "aisla", "aislar", "apaga", "apagar",
   "deshabilita", "deshabilitar", "elimina", "eliminar", "detén", "detener",
   "ejecuta", "ejecutar", "despliega", "desplegar", "configura", "configurar",
   "cambia", "cambiar", "modifica", "modificar", "borra", "borrar"]

/-- `IntentRouter.QUERY_KEYWORDS`. -/
def QUERY_KEYWORDS : List String :=
  ["show", "list", "get", "display", "what", "when", "where", "how",
   "status", "check", "see", "view", "tell", "explain", "describe",
   "muestra", "mostrar", "lista", "listar", "obtén", "obtener", "qué", "cuándo",
   "dónde", "cómo", "estado", "verifica", "verificar", "ve", "ver", "dime",
   "explica", "explicar", "describe", "describir", "hay", "cuáles", "cuál"]

/-- `IntentRouter.HIGH_RISK_ACTIONS`. -/
def HIGH_RISK_ACTIONS : List String :=
  ["block_ip", "quarantine_device", "shutdown_system", "delete_user",
   "disable_firewall", "emergency_response", "isolate_network"]

/-- `IntentRouter._determine_action_type` (argument is the lowered message). -/
def determine_action_type (message : String) : String :=
  if containsSubstr message "block" && containsSubstr message "ip" then "block_ip"
  else if containsSubstr message "quarantine" || containsSubstr message "isolate" then
    "quarantine_device"
  else if containsSubstr message "shutdown" || containsSubstr message "shut down" then
    "shutdown_system"
  else if containsSubstr message "delete" && containsSubstr message "user" then "delete_user"
  else if containsSubstr message "disable" && containsSubstr message "firewall" then
    "disable_firewall"
  else if containsSubstr message "emergency" then "emergency_response"
  else if containsSubstr message "block" then "block_resource"
  else if containsSubstr message "configure" || containsSubstr message "change" then
    "configuration_change"
  else "general_action"

/-- Device-name scan of `IntentRouter._extract_parameters`: for each index
`i` with `words[i].lower() in ["device","host","server"]` and `i+1 < len`,
set `device_name` to `words[i+1].strip('.,!?')`; a later hit overwrites an
earlier one. -/
def deviceScan : List String → Option String
  | [] => none
  | [_] => none
  | w :: next :: rest =>
    let later := deviceScan (next :: rest)
    if pyLower w == "device" || pyLower w == "host" || pyLower w == "server" then
      some (later.getD (stripPunct next))
    else later

/-- `IntentRouter._extract_parameters`. -/
def extract_parameters (message : String) : List (String × PValue) :=
  let ips := findIPs message
  let ipPart : List (String × PValue) :=
    if ips.isEmpty then [] else [("ip_addresses", PValue.list ips)]
  let ml := pyLower message
  let devPart : List (String × PValue) :=
    if containsSubstr ml "device" || containsSubstr ml "host" then
      match deviceScan (splitWs message) with
      | some d => [("device_name", PValue.str d)]
      | none => []
    else []
  let sevPart : List (String × PValue) :=
    if containsSubstr ml "critical" then [("severity", PValue.str "critical")]
    else if containsSubstr ml "high" then [("severity", PValue.str "high")]
    else if containsSubstr ml "urgent" then [("severity", PValue.str "urgent")]
    else []
  ipPart ++ devPart ++ sevPart

/-- `IntentRouter.detect_intent`. -/
def detect_intent (message : String) : String × ActionRequest :=
  let message_lower := pyLower message
  let has_action := ACTION_KEYWORDS.any (fun k => containsSubstr message_lower k)
  let has_query := QUERY_KEYWORDS.any (fun k => containsSubstr message_lower k)
  let action_type := determine_action_type message_lower
  let requires_escalation := HIGH_RISK_ACTIONS.contains action_type
  if has_action && !has_query then
    ("action",
      { intent := "action", action_type := action_type,
        parameters := extract_parameters message,
        original_message := message, requires_escalation := requires_escalation })
  else if has_query || !has_action then
    ("query",
      { intent := "query", action_type := "information_request",
        parameters := [("query", PValue.str message)],
        original_message := message, requires_escalation := false })
  else
    ("unknown",
      { intent := "unknown", action_type := "unclear",
        parameters := [("message", PValue.str message)],
        original_message := message, requires_escalation := false })

/-- `IntentRouter.should_escalate_to_victoria`. -/
def should_escalate_to_victoria (action_request : ActionRequest) : Bool :=
  action_request.requires_escalation || action_request.intent == "action"

/-! ### `sophia/handoff.py` and `victor/client_stub.py`

The network call of `_create_backend_ticket` (POST `/tickets/agent-create`)
is modelled by an explicit parameter `backend : Option String`: `some tid`
when the backend answered 201 with body field `ticket_id` rendering as `tid`,
`none` when the call timed out, returned a non-2xx status or raised — the
Python function catches every exception and returns `None`, so the embedding
is total.  Python's process-wide `hash` on strings is an explicit parameter
`hashFn : String → Int`; `%` on `Int` is `emod`, which agrees with Python's
`%` for the positive modulus 10000. -/

/-- `TicketDraft` dataclass from `victor/ticket_models.py` (the fields the
stub client reads; `context`/`metadata` dicts carried as association lists). -/
structure TicketDraft where
  subject : String
  description : String
  severity : String := "medium"
  context : List (String × PValue) := []
  company_id : Int := 0
  user_id : Int := 0
  metadata : List (String × PValue) := []
deriving DecidableEq, Repr

/-- The dict returned by `send_ticket_to_victoria` (and, in the backend
branch of `create_ticket_stub`, the dict built inline there). -/
structure VictoriaResponse where
  status : String
  ticket_id : String
  message : String
  estimated_response_time : String
deriving DecidableEq, Repr

/-- `send_ticket_to_victoria` from `victor/client_stub.py`. -/
def send_ticket_to_victoria (hashFn : String → Int) (ticket : TicketDraft) :
    VictoriaResponse :=
  { status := "pending"
    ticket_id :=
      "STUB-" ++ toString ticket.company_id ++ "-" ++ toString (hashFn ticket.subject % 10000)
    message := "Ticket created (stub mode - VictorIA not yet integrated)"
    estimated_response_time := "15 minutes" }

/-- `_determine_severity` from `sophia/handoff.py`. -/
def determine_severity (action_request : ActionRequest) : String :=
  if action_request.requires_escalation then "critical"
  else if action_request.action_type ∈ ["block_ip", "quarantine_device", "shutdown_system"] then
    "high"
  else if action_request.intent == "action" then "medium"
  else "low"

/-- Python `str(bool)`. -/
def pyBool : Bool → String
  | true => "True"
  | false => "False"

/-- Python `repr` of a string (ASCII content without quote characters, the
only shape occurring in this code path). -/
def pyStrRepr (s : String) : String :=
  String.singleton (Char.ofNat 39) ++ s ++ String.singleton (Char.ofNat 39)

/-- Python `repr` of a `parameters` value. -/
def pyValRepr : PValue → String
  | .str v => pyStrRepr v
  | .list vs => "[" ++ String.intercalate ", " (vs.map pyStrRepr) ++ "]"

/-- Python `repr` of the `parameters` dict (insertion order). -/
def pyDictRepr (ps : List (String × PValue)) : String :=
  "\x7b" ++
    String.intercalate ", " (ps.map (fun p => pyStrRepr p.1 ++ ": " ++ pyValRepr p.2)) ++
  "\x7d"

/-- The ticket subject template of `create_ticket_stub`. -/
def ticketSubject (action_request : ActionRequest) : String :=
  "Solicitud de Acción de Seguridad: " ++ action_request.action_type

/-- The (stripped) ticket description template of `create_ticket_stub`. -/
def ticketDescription (action_request : ActionRequest) : String :=
  "Acción solicitada por el usuario: " ++ action_request.original_message ++
  "\n\nIntención detectada: " ++ action_request.intent ++
  "\nTipo de acción: " ++ action_request.action_type ++
  "\nParámetros: " ++ pyDictRepr action_request.parameters ++
  "\nRequiere escalación: " ++ pyBool action_request.requires_escalation ++
  "\n\nEsta acción requiere revisión manual y ejecución por VictorIA."

/-- Pieces of the (stripped) user-facing template of
`_create_escalation_message_with_id`; the message is their concatenation
around the interpolated `ticket_id`, `severity` and `estimated_time`. -/
def escMsgP1 : String :=
  "🎫 **Este caso requiere intervención de VictorIA**\n\nSu solicitud ha sido escalada para revisión manual:\n- **Ticket ID**: "

def escMsgP2 : String := "\n- **Severidad**: "

def escMsgP3 : String := "\n- **Tiempo estimado de respuesta**: "

def escMsgP4 : String :=
  "\n\nVictorIA revisará su solicitud y tomará las acciones necesarias. Recibirá una notificación cuando se complete.\n\n💡 **Nota**: Las acciones de seguridad críticas requieren aprobación manual para garantizar la seguridad del sistema."

/-- `_create_escalation_message_with_id` from `sophia/handoff.py`
(`estimated_time` is `victoria_response.get('estimated_response_time',
'15 minutes')`; both constructions of the dict populate the key). -/
def create_escalation_message_with_id (ticket_id severity : String)
    (victoria_response : VictoriaResponse) : String :=
  escMsgP1 ++ ticket_id ++ escMsgP2 ++ severity ++ escMsgP3 ++
    victoria_response.estimated_response_time ++ escMsgP4

/-- The dict returned by `create_ticket_stub`. -/
structure EscalationResult where
  ticket_id : String
  victoria_response : VictoriaResponse
  escalation_message : String
deriving DecidableEq, Repr

/-- `create_ticket_stub` from `sophia/handoff.py`. -/
def create_ticket_stub (backend : Option String) (hashFn : String → Int)
    (action_request : ActionRequest) (company_id user_id : Int)
    (context : List (String × PValue) := []) : EscalationResult :=
  let severity := determine_severity action_request
  let subject := ticketSubject action_request
  let description := ticketDescription action_request
  match backend with
  | some tid =>
    let victoria_response : VictoriaResponse :=
      { status := "pending", ticket_id := tid,
        message := "Ticket created and escalated to VictorIA",
        estimated_response_time := "15 minutes" }
    { ticket_id := tid, victoria_response := victoria_response,
      escalation_message :=
        create_escalation_message_with_id tid severity victoria_response }
  | none =>
    let ticket : TicketDraft :=
      { subject := subject, description := description, severity := severity,
        context := context, company_id := company_id, user_id := user_id,
        metadata := [] }
    let victoria_response := send_ticket_to_victoria hashFn ticket
    { ticket_id := victoria_response.ticket_id, victoria_response := victoria_response,
      escalation_message :=
        create_escalation_message_with_id victoria_response.ticket_id severity
          victoria_response }

/-! ### Backend route `agent_create_ticket` from `txdxai/tickets/routes.py`

The route adds exactly one new `Ticket` row per call and commits; the
canonical identifier is assigned by the database primary-key sequence,
modelled as the `next_id` counter of the store state.  No deduplication
against existing rows is performed. -/

structure TicketRow where
  id : Nat
  company_id : Int
  created_by_user_id : Int
  subject : String
  description : String
  status : String
deriving DecidableEq, Repr

structure TicketDB where
  next_id : Nat
  rows : List TicketRow
deriving DecidableEq, Repr

/-- `agent_create_ticket`: insert one `PENDING` ticket, return the
database-assigned id and the new store state. -/
def agent_create_ticket (db : TicketDB) (company_id user_id : Int)
    (subject description : String) : Nat × TicketDB :=
  let id := db.next_id
  (id,
   { next_id := db.next_id + 1,
     rows := db.rows ++
       [{ id := id, company_id := company_id, created_by_user_id := user_id,
          subject := subject, description := description, status := "PENDING" }] })

/-! ### `sophia/memory.py`

`datetime.utcnow()` is modelled by an abstract clock value (`Nat`) passed to
each operation; `secrets.token_hex(8)` by an explicit `token` argument.
Python dicts are modelled as insertion-ordered association lists with the
overwrite-in-place update `setKey`. -/

/-- Dict assignment `d[k] = v`: overwrite in place, append if absent. -/
def setKey {α β : Type} [BEq α] : List (α × β) → α → β → List (α × β)
  | [], k, v => [(k, v)]
  | (k', v') :: rest, k, v =>
    if k' == k then (k, v) :: rest else (k', v') :: setKey rest k v

/-- A message entry appended by `ConversationContext.add_message`. -/
structure Message where
  role : String
  content : String
  timestamp : Nat
deriving DecidableEq, Repr

/-- `ConversationContext` dataclass. -/
structure ConversationContext where
  thread_id : String
  company_id : Int
  user_id : Int
  messages : List Message := []
  created_at : Nat := 0
  last_updated : Nat := 0
  metadata : List (String × PValue) := []
deriving DecidableEq, Repr

/-- `ConversationContext.add_message`: append and refresh `last_updated`. -/
def ConversationContext.add_message (ctx : ConversationContext)
    (role content : String) (now : Nat) : ConversationContext :=
  { ctx with
    messages := ctx.messages ++ [{ role := role, content := content, timestamp := now }]
    last_updated := now }

/-- `MemoryManager` state: `_sessions` and `_company_threads`. -/
structure MemoryManager where
  sessions : List (String × ConversationContext) := []
  company_threads : List (Int × List String) := []
deriving DecidableEq, Repr

/-- `MemoryManager.create_thread`. -/
def MemoryManager.create_thread (mm : MemoryManager) (company_id user_id : Int)
    (token : String) (now : Nat) : String × MemoryManager :=
  let thread_id := "thread_" ++ toString company_id ++ "_" ++ token
  let context : ConversationContext :=
    { thread_id := thread_id, company_id := company_id, user_id := user_id,
      messages := [], created_at := now, last_updated := now, metadata := [] }
  let existing := (mm.company_threads.lookup company_id).getD []
  (thread_id,
   { sessions := setKey mm.sessions thread_id context
     company_threads := setKey mm.company_threads company_id (existing ++ [thread_id]) })

/-- `MemoryManager.get_context`. -/
def MemoryManager.get_context (mm : MemoryManager) (thread_id : String) :
    Option ConversationContext :=
  mm.sessions.lookup thread_id

/-- `MemoryManager.add_message`: silently ignores an unknown `thread_id`
(the `else` branch only logs a warning). -/
def MemoryManager.add_message (mm : MemoryManager) (thread_id role content : String)
    (now : Nat) : MemoryManager :=
  match mm.get_context thread_id with
  | some context =>
    { mm with
      sessions := setKey mm.sessions thread_id (context.add_message role content now) }
  | none => mm

/-! ### `sophia/rag_tools.py`, `RAGTool._search_mock`

The embedded corpus `mock_knowledge` carries the fields the scoring reads
(`content`, `title`, `metadata.category`) plus the static `score` used only
as a pass-through payload (modelled as a rational). -/

structure MockDoc where
  content : String
  title : String
  score : ℚ
  source : String
  category : String
deriving DecidableEq, Repr

def mock_knowledge : List MockDoc :=
  [{ content := "SOPHIA es un agente de IA multi-tenant para operaciones de ciberseguridad. Puede analizar alertas de seguridad, proporcionar inteligencia de amenazas y coordinar la respuesta a incidentes.",
     title := "Resumen de SOPHIA", score := 0.95,
     source := "documentation", category := "sophia" },
   { content := "Un firewall es un sistema de seguridad de red que monitorea y controla el tráfico entrante y saliente basándose en reglas de seguridad predeterminadas. Actúa como una barrera entre una red interna confiable y redes externas no confiables como Internet. Los firewalls pueden ser de hardware, software o una combinación de ambos. Funciones principales: filtrado de paquetes, inspección de estado, prevención de intrusiones y control de aplicaciones.",
     title := "¿Qué es un Firewall?", score := 0.92,
     source := "education", category := "concepts" },
   { content := "Para bloquear una dirección IP, necesitas configurar reglas de firewall. Esta acción requiere aprobación de VictorIA para cumplir con las políticas de seguridad.",
     title := "Procedimientos de Bloqueo de IP", score := 0.88,
     source := "security-procedures", category := "procedures" },
   { content := "Un IDS (Sistema de Detección de Intrusiones) es una herramienta de seguridad que monitorea el tráfico de red en busca de actividades sospechosas y violaciones de políticas. A diferencia de un firewall que bloquea el tráfico, un IDS solo detecta y alerta sobre amenazas. Un IPS (Sistema de Prevención de Intrusiones) va un paso más allá al detectar Y bloquear automáticamente las amenazas.",
     title := "IDS vs IPS", score := 0.90,
     source := "education", category := "concepts" },
   { content := "Un ataque DDoS (Distributed Denial of Service) es un intento malicioso de interrumpir el tráfico normal de un servidor, servicio o red inundándolo con tráfico de Internet. Los ataques DDoS utilizan múltiples sistemas comprometidos como fuentes de tráfico de ataque. Las defensas incluyen rate limiting, filtrado de tráfico, CDN y servicios anti-DDoS especializados.",
     title := "Ataques DDoS", score := 0.89,
     source := "education", category := "threats" },
   { content := "Las alertas de seguridad pueden obtenerse desde Palo Alto Networks, Splunk, Wazuh y otras herramientas de seguridad integradas.",
     title := "Fuentes de Alertas de Seguridad", score := 0.82,
     source := "integrations", category := "alerts" },
   { content := "Las acciones de seguridad de alto riesgo como cuarentena de dispositivos, aislamiento de red o apagado de sistemas requieren aprobación manual a través de escalación a VictorIA.",
     title := "Política de Escalación de Acciones de Seguridad", score := 0.79,
     source := "policies", category := "escalation" },
   { content := "Las métricas del sistema y datos de rendimiento pueden monitorearse a través de dashboards de Grafana. Las métricas clave incluyen CPU, memoria, uso de disco y throughput de red.",
     title := "Monitoreo de Sistemas", score := 0.75,
     source := "monitoring", category := "metrics" },
   { content := "Un ransomware es un tipo de malware que cifra los archivos de la víctima y exige un pago (rescate) para restaurar el acceso. Las medidas preventivas incluyen: backups regulares, actualizaciones de seguridad, educación de usuarios, segmentación de red y sistemas de detección de comportamiento anómalo.",
     title := "Ransomware", score := 0.87,
     source := "education", category := "threats" },
   { content := "La autenticación multifactor (MFA) es un método de seguridad que requiere que los usuarios proporcionen dos o más factores de verificación para acceder a un recurso. Los factores pueden ser: algo que sabes (contraseña), algo que tienes (token/teléfono), o algo que eres (biometría). MFA reduce significativamente el riesgo de acceso no autorizado.",
     title := "Autenticación Multifactor (MFA)", score := 0.86,
     source := "education", category := "concepts" }]

def explanatoryPhrases : List String :=
  ["qué es", "que es", "what is", "cómo funciona", "explica", "explain"]

/-- The per-document relevance score of `_search_mock` (`match_count`;
an `Int`, since the procedural-content penalty can drive it negative). -/
def mockMatchCount (query : String) (doc : MockDoc) : Int :=
  let query_lower := pyLower query
  let query_words := splitWs query_lower
  let doc_text := pyLower (doc.content ++ " " ++ doc.title)
  let m0 : Int :=
    ((query_words.filter (fun w => containsSubstr doc_text w && decide (2 < w.length))).length : Int)
  let m1 := if containsSubstr doc_text query_lower then m0 + 10 else m0
  let m2 :=
    if containsSubstr query_lower "métrica" && doc.category == "metrics" then m1 + 5
    else if containsSubstr query_lower "alert" && doc.category == "alerts" then m1 + 5
    else m1
  if explanatoryPhrases.any (fun p => containsSubstr query_lower p) then
    if doc.category ∈ ["concepts", "education", "threats"] then m2 + 15
    else if doc.category == "procedures" then m2 - 5
    else m2
  else m2

/-- Stable descending insertion, reproducing Python's stable
`list.sort(key=..., reverse=True)`: an element is placed before the first
strictly smaller key, so equal keys keep their original relative order. -/
def insertDesc (x : MockDoc × Int) : List (MockDoc × Int) → List (MockDoc × Int)
  | [] => [x]
  | y :: ys => if y.2 < x.2 then x :: y :: ys else y :: insertDesc x ys

def sortDesc (l : List (MockDoc × Int)) : List (MockDoc × Int) :=
  l.foldl (fun acc x => insertDesc x acc) []

/-- `RAGTool._search_mock`: score the corpus, keep strictly positive scores,
sort stably by descending score, take `top_k`; fall back to the first
`top_k` corpus documents when nothing scored. -/
def searchMock (query : String) (top_k : Nat) : List MockDoc :=
  let scored :=
    (mock_knowledge.map (fun d => (d, mockMatchCount query d))).filter (fun p => 0 < p.2)
  let relevant := ((sortDesc scored).take top_k).map Prod.fst
  if relevant.isEmpty then mock_knowledge.take top_k else relevant

/-! ## Helper lemmas -/

/-- Substring containment as a decomposition of the larger string. -/
def strContains (s sub : String) : Prop := ∃ a b : String, s = a ++ sub ++ b

theorem lookup_setKey {β : Type} (l : List (String × β)) (k : String) (v : β) :
    (setKey l k v).lookup k = some v := by
  induction l with
  | nil => simp [setKey, List.lookup]
  | cons p rest ih =>
    obtain ⟨k', v'⟩ := p
    by_cases h : k' = k
    · simp [setKey, h, List.lookup]
    · have hb : (k == k') = false := beq_eq_false_iff_ne.mpr (Ne.symm h)
      simp only [setKey]
      rw [if_neg (by simpa using h)]
      simp [List.lookup, hb, ih]

theorem escMsg_contains_ticket (t sev : String) (vr : VictoriaResponse) :
    strContains (create_escalation_message_with_id t sev vr) t :=
  ⟨escMsgP1, escMsgP2 ++ sev ++ escMsgP3 ++ vr.estimated_response_time ++ escMsgP4, by
    simp only [create_escalation_message_with_id, String.append_assoc]⟩

theorem escMsg_contains_severity (t sev : String) (vr : VictoriaResponse) :
    strContains (create_escalation_message_with_id t sev vr) sev :=
  ⟨escMsgP1 ++ t ++ escMsgP2, escMsgP3 ++ vr.estimated_response_time ++ escMsgP4, by
    simp only [create_escalation_message_with_id, String.append_assoc]⟩

/-- Both branches of `create_ticket_stub` build the user message from the
returned ticket id, the computed severity and the victoria response. -/
theorem create_ticket_stub_message_eq (backend : Option String) (hashFn : String → Int)
    (ar : ActionRequest) (cid uid : Int) (ctx : List (String × PValue)) :
    (create_ticket_stub backend hashFn ar cid uid ctx).escalation_message =
      create_escalation_message_with_id
        (create_ticket_stub backend hashFn ar cid uid ctx).ticket_id
        (determine_severity ar)
        (create_ticket_stub backend hashFn ar cid uid ctx).victoria_response := by
  cases backend <;> rfl

theorem stub_id_ne_empty (x y : String) : ("STUB-" ++ x ++ "-" ++ y) ≠ "" := by
  intro h
  have := congrArg String.data h
  simp [String.data_append] at this

/-- In every branch of `detect_intent` the `requires_escalation` flag equals
membership of the produced `action_type` in `HIGH_RISK_ACTIONS`. -/
theorem detect_intent_escalation (message : String) :
    (detect_intent message).2.requires_escalation =
      HIGH_RISK_ACTIONS.contains (detect_intent message).2.action_type := by
  simp only [detect_intent]
  split
  · rfl
  · split
    · exact (by decide : false = HIGH_RISK_ACTIONS.contains "information_request")
    · exact (by decide : false = HIGH_RISK_ACTIONS.contains "unclear")

/-- Concrete store with one populated thread, used as a witness state. -/
def sampleMemoryState : MemoryManager :=
  { sessions :=
      [("thread_1_aa",
        { thread_id := "thread_1_aa", company_id := 1, user_id := 2,
          messages := [{ role := "user", content := "hola", timestamp := 3 }],
          created_at := 0, last_updated := 3, metadata := [] })]
    company_threads := [(1, ["thread_1_aa"])] }

/-! ## Claims -/

/-- C1: every action descriptor the classifier constructs whose `action_type`
lies in the high-risk catalogue `HIGH_RISK_ACTIONS` is rated
severity `critical` by `_determine_severity` and escalated by
`should_escalate_to_victoria` (the classifier sets `requires_escalation`
exactly when the action type is in the catalogue). -/
theorem high_risk_action_type_critical_and_escalated (message : String)
    (h : (detect_intent message).2.action_type ∈ HIGH_RISK_ACTIONS) :
    determine_severity (detect_intent message).2 = "critical" ∧
    should_escalate_to_victoria (detect_intent message).2 = true := by
  have hc : HIGH_RISK_ACTIONS.contains (detect_intent message).2.action_type = true := by
    simpa [List.contains] using List.elem_iff.mpr h
  have hreq : (detect_intent message).2.requires_escalation = true := by
    rw [detect_intent_escalation, hc]
  simp [determine_severity, should_escalate_to_victoria, hreq]

set_option maxRecDepth 8192 in
/-- C1 witness: the message `"block ip 1.2.3.4"` produces the high-risk
action type `block_ip` and is rated critical and escalated. -/
theorem high_risk_action_type_critical_and_escalated_witness :
    determine_severity (detect_intent "block ip 1.2.3.4").2 = "critical" ∧
    should_escalate_to_victoria (detect_intent "block ip 1.2.3.4").2 = true :=
  high_risk_action_type_critical_and_escalated "block ip 1.2.3.4" (by decide)

/-- C2: every action descriptor with `intent = "action"` is escalated by
`should_escalate_to_victoria`; no action-intent request bypasses escalation. -/
theorem action_intent_always_escalated (ar : ActionRequest) (h : ar.intent = "action") :
    should_escalate_to_victoria ar = true := by
  simp [should_escalate_to_victoria, h]

/-- C2 witness: a non-high-risk action descriptor is still escalated. -/
theorem action_intent_always_escalated_witness :
    should_escalate_to_victoria
      { intent := "action", action_type := "general_action" } = true :=
  action_intent_always_escalated { intent := "action", action_type := "general_action" } rfl

/-- C3: a message whose lower-cased text contains at least one
`ACTION_KEYWORDS` entry and no `QUERY_KEYWORDS` entry is classified with
`intent = "action"` by `detect_intent`. -/
theorem action_keyword_without_query_keyword_is_action (message : String)
    (hA : ∃ k ∈ ACTION_KEYWORDS, containsSubstr (pyLower message) k = true)
    (hQ : ∀ k ∈ QUERY_KEYWORDS, containsSubstr (pyLower message) k = false) :
    (detect_intent message).1 = "action" := by
  have hA' : (ACTION_KEYWORDS.any fun k => containsSubstr (pyLower message) k) = true := by
    simpa [List.any_eq_true] using hA
  have hQ' : (QUERY_KEYWORDS.any fun k => containsSubstr (pyLower message) k) = false := by
    simp only [List.any_eq_false]
    exact fun k hk => by simpa using hQ k hk
  simp [detect_intent, hA', hQ']

set_option maxRecDepth 8192 in
/-- C3 witness: `"block ip 1.2.3.4"` contains the action keyword `block` and
no query keyword, and is classified as an action. -/
theorem action_keyword_without_query_keyword_is_action_witness :
    (detect_intent "block ip 1.2.3.4").1 = "action" :=
  action_keyword_without_query_keyword_is_action "block ip 1.2.3.4" (by decide) (by decide)

set_option maxRecDepth 8192 in
/-- C4 counterexample: on `"bloquea la IP 10.0.0.5"` the action-type rules of
`_determine_action_type` (which test the English substrings `"block"` and
`"ip"` on the lowered text) yield `general_action`, not `block_ip`, and the
severity is `medium`, not `critical`. -/
theorem bloquea_message_not_block_ip :
    (detect_intent "bloquea la IP 10.0.0.5").2.action_type = "general_action" ∧
    "general_action" ≠ "block_ip" ∧
    determine_severity (detect_intent "bloquea la IP 10.0.0.5").2 = "medium" ∧
    "medium" ≠ "critical" := by decide

set_option maxRecDepth 8192 in
/-- C4 (amended): `"bloquea la IP 10.0.0.5"` is classified as an action with
`action_type = "general_action"` and extracted `ip_addresses = ["10.0.0.5"]`;
the risk policy yields severity `medium` and escalate `true`; and the
escalation result carries a ticket id whose user message contains that ticket
id and the severity `medium`. -/
theorem bloquea_message_scenario (backend : Option String) (hashFn : String → Int)
    (company_id user_id : Int) :
    (detect_intent "bloquea la IP 10.0.0.5").1 = "action" ∧
    (detect_intent "bloquea la IP 10.0.0.5").2.action_type = "general_action" ∧
    (detect_intent "bloquea la IP 10.0.0.5").2.parameters.lookup "ip_addresses"
      = some (PValue.list ["10.0.0.5"]) ∧
    should_escalate_to_victoria (detect_intent "bloquea la IP 10.0.0.5").2 = true ∧
    determine_severity (detect_intent "bloquea la IP 10.0.0.5").2 = "medium" ∧
    strContains
      (create_ticket_stub backend hashFn (detect_intent "bloquea la IP 10.0.0.5").2
        company_id user_id).escalation_message
      (create_ticket_stub backend hashFn (detect_intent "bloquea la IP 10.0.0.5").2
        company_id user_id).ticket_id ∧
    strContains
      (create_ticket_stub backend hashFn (detect_intent "bloquea la IP 10.0.0.5").2
        company_id user_id).escalation_message "medium" := by
  have hsev : determine_severity (detect_intent "bloquea la IP 10.0.0.5").2 = "medium" := by
    decide
  refine ⟨by decide, by decide, by decide, by decide, hsev, ?_, ?_⟩
  · rw [create_ticket_stub_message_eq]
    exact escMsg_contains_ticket _ _ _
  · rw [create_ticket_stub_message_eq, ← hsev]
    exact escMsg_contains_severity _ _ _

/-- C5: when the backend ticket creation fails (`_create_backend_ticket`
returned `None` after catching any timeout, non-201 status or exception),
`create_ticket_stub` still returns — totally, without raising — a ticket id
synthesized deterministically as `STUB-<company_id>-<hash(subject) % 10000>`,
which is non-empty, and a user message containing that ticket id and the
computed severity. -/
theorem escalation_fallback_returns_ticket (hashFn : String → Int) (ar : ActionRequest)
    (company_id user_id : Int) :
    (create_ticket_stub none hashFn ar company_id user_id).ticket_id =
      "STUB-" ++ toString company_id ++ "-" ++ toString (hashFn (ticketSubject ar) % 10000) ∧
    (create_ticket_stub none hashFn ar company_id user_id).ticket_id ≠ "" ∧
    strContains (create_ticket_stub none hashFn ar company_id user_id).escalation_message
      (create_ticket_stub none hashFn ar company_id user_id).ticket_id ∧
    strContains (create_ticket_stub none hashFn ar company_id user_id).escalation_message
      (determine_severity ar) := by
  have e : (create_ticket_stub none hashFn ar company_id user_id).ticket_id =
      "STUB-" ++ toString company_id ++ "-" ++ toString (hashFn (ticketSubject ar) % 10000) :=
    rfl
  refine ⟨e, ?_, ?_, ?_⟩
  · rw [e]; exact stub_id_ne_empty _ _
  · rw [create_ticket_stub_message_eq]; exact escMsg_contains_ticket _ _ _
  · rw [create_ticket_stub_message_eq]; exact escMsg_contains_severity _ _ _

set_option maxRecDepth 8192 in
/-- C6 counterexample: two fallback escalations with identical inputs produce
the *same* ticket id — `STUB-<company_id>-<hash(subject) % 10000>` is a
deterministic function of the inputs (`hash` is fixed within a process),
so no distinctness holds on the stub path; concretely both calls yield
`"STUB-7-48"`. -/
theorem identical_fallback_calls_equal_ticket_ids :
    (create_ticket_stub none (fun s => (s.length : Int))
        { intent := "action", action_type := "general_action" } 7 3).ticket_id
      = (create_ticket_stub none (fun s => (s.length : Int))
          { intent := "action", action_type := "general_action" } 7 3).ticket_id ∧
    (create_ticket_stub none (fun s => (s.length : Int))
        { intent := "action", action_type := "general_action" } 7 3).ticket_id
      = "STUB-7-48" :=
  ⟨rfl, by decide⟩

/-- C6 (amended): distinct ticket ids for repeated identical escalations come
from the backend ticket store: `agent_create_ticket` inserts one fresh row
per call with a fresh sequence id (no deduplication), so two successive calls
with identical inputs return distinct ids, and `create_ticket_stub` returns
whatever distinct ids the backend assigned; but when both calls fall back to
the local stub, the two ticket ids coincide. -/
theorem ticket_ids_distinct_only_via_backend (db : TicketDB)
    (company_id user_id company_id2 user_id2 : Int) (subject description : String)
    (hashFn : String → Int) (ar : ActionRequest) (t1 t2 : String) (h : t1 ≠ t2) :
    (agent_create_ticket db company_id user_id subject description).1
      ≠ (agent_create_ticket
          (agent_create_ticket db company_id user_id subject description).2
          company_id user_id subject description).1 ∧
    (create_ticket_stub (some t1) hashFn ar company_id2 user_id2).ticket_id
      ≠ (create_ticket_stub (some t2) hashFn ar company_id2 user_id2).ticket_id ∧
    (create_ticket_stub none hashFn ar company_id2 user_id2).ticket_id
      = (create_ticket_stub none hashFn ar company_id2 user_id2).ticket_id := by
  refine ⟨?_, h, rfl⟩
  simp only [agent_create_ticket]
  omega

/-- C6 (amended) witness at concrete inputs. -/
theorem ticket_ids_distinct_only_via_backend_witness :
    (agent_create_ticket ⟨1, []⟩ 1 1 "s" "d").1
      ≠ (agent_create_ticket (agent_create_ticket ⟨1, []⟩ 1 1 "s" "d").2 1 1 "s" "d").1 ∧
    (create_ticket_stub (some "8") (fun s => (s.length : Int))
        { intent := "action", action_type := "general_action" } 2 2).ticket_id
      ≠ (create_ticket_stub (some "9") (fun s => (s.length : Int))
          { intent := "action", action_type := "general_action" } 2 2).ticket_id ∧
    (create_ticket_stub none (fun s => (s.length : Int))
        { intent := "action", action_type := "general_action" } 2 2).ticket_id
      = (create_ticket_stub none (fun s => (s.length : Int))
          { intent := "action", action_type := "general_action" } 2 2).ticket_id :=
  ticket_ids_distinct_only_via_backend ⟨1, []⟩ 1 1 2 2 "s" "d" (fun s => (s.length : Int))
    { intent := "action", action_type := "general_action" } "8" "9" (by decide)

set_option maxRecDepth 8192 in
/-- C7: for the query `"qué es un firewall"` with `top_k = 3`, the mock
search returns the firewall-definition document (category `concepts`,
conceptually boosted) and ranks it strictly above the IP-blocking-procedure
document (category `procedures`, penalized below the inclusion threshold, so
it appears after every returned position — `indexOf` of an absent element is
the list length). -/
theorem firewall_query_ranks_concept_above_procedure :
    "¿Qué es un Firewall?" ∈ (searchMock "qué es un firewall" 3).map MockDoc.title ∧
    ((searchMock "qué es un firewall" 3).map MockDoc.title).indexOf "¿Qué es un Firewall?"
      < ((searchMock "qué es un firewall" 3).map MockDoc.title).indexOf
          "Procedimientos de Bloqueo de IP" := by decide

/-- C8: `create_thread`, then a user append, then an assistant append, then
`get_context` returns exactly the two messages in append order; with a
non-decreasing clock (`t1 ≤ t2`, reflecting the monotone `datetime.utcnow`)
the stored timestamps are non-decreasing. -/
theorem memory_round_trip (mm : MemoryManager) (company_id user_id : Int) (token : String)
    (t0 t1 t2 : Nat) (c1 c2 : String) (h : t1 ≤ t2) :
    ((((mm.create_thread company_id user_id token t0).2.add_message
        (mm.create_thread company_id user_id token t0).1 "user" c1 t1).add_message
        (mm.create_thread company_id user_id token t0).1 "assistant" c2 t2).get_context
        (mm.create_thread company_id user_id token t0).1).map ConversationContext.messages
      = some [{ role := "user", content := c1, timestamp := t1 },
              { role := "assistant", content := c2, timestamp := t2 }] ∧
    List.Chain' (fun a b => a.timestamp ≤ b.timestamp)
      [({ role := "user", content := c1, timestamp := t1 } : Message),
       { role := "assistant", content := c2, timestamp := t2 }] := by
  constructor
  · simp [MemoryManager.create_thread, MemoryManager.add_message, MemoryManager.get_context,
      ConversationContext.add_message, lookup_setKey]
  · simpa using h

/-- C8 witness at concrete inputs. -/
theorem memory_round_trip_witness :
    ((((MemoryManager.create_thread ⟨[], []⟩ 1 2 "ab" 0).2.add_message
        (MemoryManager.create_thread ⟨[], []⟩ 1 2 "ab" 0).1 "user" "hola" 1).add_message
        (MemoryManager.create_thread ⟨[], []⟩ 1 2 "ab" 0).1 "assistant" "respuesta" 2).get_context
        (MemoryManager.create_thread ⟨[], []⟩ 1 2 "ab" 0).1).map ConversationContext.messages
      = some [{ role := "user", content := "hola", timestamp := 1 },
              { role := "assistant", content := "respuesta", timestamp := 2 }] ∧
    List.Chain' (fun a b => a.timestamp ≤ b.timestamp)
      [({ role := "user", content := "hola", timestamp := 1 } : Message),
       { role := "assistant", content := "respuesta", timestamp := 2 }] :=
  memory_round_trip ⟨[], []⟩ 1 2 "ab" 0 1 2 "hola" "respuesta" (by decide)

/-- C9: `detect_intent` always returns intent `action` or `query` — the
`unknown` branch is unreachable — and the empty message yields `query`. -/
theorem detect_intent_total_no_unknown :
    (∀ message : String,
      (detect_intent message).1 = "action" ∨ (detect_intent message).1 = "query") ∧
    (detect_intent "").1 = "query" := by
  constructor
  · intro message
    simp only [detect_intent]
    generalize (ACTION_KEYWORDS.any fun k => containsSubstr (pyLower message) k) = a
    generalize (QUERY_KEYWORDS.any fun k => containsSubstr (pyLower message) k) = b
    cases a <;> cases b <;> simp
  · decide

/-- C10: `MemoryManager.add_message` on an unknown `thread_id` is a silent
no-op: the whole manager state — session store and every thread's message
list — is returned unchanged, and nothing is raised (the embedding is a
total function). -/
theorem add_message_unknown_thread_noop (mm : MemoryManager)
    (thread_id role content : String) (now : Nat)
    (h : mm.get_context thread_id = none) :
    mm.add_message thread_id role content now = mm := by
  unfold MemoryManager.add_message
  rw [h]

/-- C10 witness: a populated store is unchanged by an append to a missing
thread id. -/
theorem add_message_unknown_thread_noop_witness :
    sampleMemoryState.add_message "missing" "user" "x" 9 = sampleMemoryState :=
  add_message_unknown_thread_noop sampleMemoryState "missing" "user" "x" 9 (by decide)

end Sophia

